import Mathlib

/-!
# Verification of the AudioStreamer component (ai-sales frontend)

Shallow embedding of `src/ai-sales-frontend/src/components/AudioStreamer.tsx`:
the PCM16 audio frame codec (decode loop of `playAudioQueue`, lines 88-92, and
the `Int16Array` capture serialization, lines 145-154), the playback scheduler
(`audioQueueRef` + `isPlayingRef`, lines 38-49 and 70-108), and the capture
pipeline (`startRecording` / `onaudioprocess` / `stopRecording`, lines 111-195).
Machine integers are modelled as `Nat`/`Int`; JavaScript floats as `ℚ`.
-/

namespace AudioStreamer

/-! ## Audio frame codec -/

/-- A wire audio frame: a raw byte buffer (entries are byte values `< 256`),
as stored in `audioQueueRef : Uint8Array[]`. -/
abbrev Frame := List Nat

/-- Unsigned 16-bit assembly of two little-endian bytes, line 90:
`audioData[i * 2] | (audioData[i * 2 + 1] << 8)`. -/
def u16OfBytesLE (b0 b1 : Nat) : Nat := b0 ||| (b1 <<< 8)

/-- The ternary of line 91,
`sample < 32768 ? sample / 32768 : (sample - 65536) / 32768`:
unsigned-then-correct conversion of the assembled 16-bit value to a float
sample, modelled over `ℚ`. -/
def sampleToFloat (u : Nat) : ℚ :=
  if u < 32768 then (u : ℚ) / 32768 else ((u : ℚ) - 65536) / 32768

/-- The unsigned-then-correct branch of line 91 at the integer-sample level:
the signed 16-bit value whose division by 32768 line 91 computes. -/
def toSigned16 (u : Nat) : Int :=
  if u < 32768 then (u : Int) else (u : Int) - 65536

/-- Following the spec's words (§4.1), the comparison path for the refinement
claim: direct signed 16-bit little-endian interpretation of the same two
bytes. -/
def directSignedLE (b0 b1 : Nat) : Int :=
  if b0 + 256 * b1 < 32768 then (b0 + 256 * b1 : Int)
  else (b0 + 256 * b1 : Int) - 65536

/-- The decode loop of `playAudioQueue` (lines 85-92) at the sample level:
`channelData.length` is `audioData.length / 2` with JavaScript truncation
(line 85), so consecutive little-endian byte pairs are read and a trailing
odd byte is never touched. -/
def decode : List Nat → List Int
  | b0 :: b1 :: rest => toSigned16 (u16OfBytesLE b0 b1) :: decode rest
  | _ => []

/-- The capture side's serialization (lines 146-154): each signed 16-bit
sample is stored into an `Int16Array` and the underlying buffer is sent,
i.e. two's-complement little-endian byte pairs. -/
def encode : List Int → List Nat
  | [] => []
  | s :: rest => ((s % 65536).toNat % 256) :: ((s % 65536).toNat / 256) :: encode rest

/-- JavaScript number-to-`Int16Array` store for an in-range value: truncation
toward zero (the `mod 2^16` wrap is the identity on `[-32768, 32767]`). -/
def jsTrunc (q : ℚ) : Int := if 0 ≤ q then ⌊q⌋ else ⌈q⌉

/-- Line 149: `Math.max(-32768, Math.min(32767, inputData[i] * 32768))`,
followed by the `Int16Array` store. -/
def floatToInt16 (x : ℚ) : Int :=
  jsTrunc (max (-32768) (min 32767 (x * 32768)))

/-- Little-endian byte assembly is addition of the shifted byte when the low
byte fits in 8 bits. -/
theorem u16OfBytesLE_eq_add (b0 b1 : Nat) (h : b0 < 256) :
    u16OfBytesLE b0 b1 = b0 + 256 * b1 := by
  have h8 : b0 < 2 ^ 8 := by norm_num; omega
  have hpow : (2 : Nat) ^ 8 = 256 := by norm_num
  unfold u16OfBytesLE
  rw [Nat.lor_comm, Nat.shiftLeft_eq, Nat.mul_comm, ← Nat.mul_add_lt_is_or h8 b1]
  omega

/-- Two-samples-at-a-time induction on byte buffers, matching the shape of
`decode`. -/
theorem twoStepInduction {α : Type} {P : List α → Prop} (nil : P [])
    (single : ∀ b, P [b])
    (cons2 : ∀ b0 b1 rest, P rest → P (b0 :: b1 :: rest)) : ∀ bs, P bs
  | [] => nil
  | [b] => single b
  | b0 :: b1 :: rest => cons2 b0 b1 rest (twoStepInduction nil single cons2 rest)

/-- C3: for every pair of bytes, the unsigned-then-correct float conversion of
line 91 applied to the little-endian assembly of line 90 agrees with the
direct signed 16-bit little-endian interpretation divided by 32768. -/
theorem c3_decode_paths_agree (b0 b1 : Nat) (h0 : b0 < 256) (h1 : b1 < 256) :
    sampleToFloat (u16OfBytesLE b0 b1) = (directSignedLE b0 b1 : ℚ) / 32768 := by
  rw [u16OfBytesLE_eq_add b0 b1 h0]
  unfold sampleToFloat directSignedLE
  split_ifs with h
  · push_cast
    ring
  · push_cast
    ring

/-- Witness for C3 at the byte pair `(255, 255)` (sample value `-1`). -/
theorem c3_decode_paths_agree_witness :
    (255 < 256 ∧ 255 < 256) ∧
      sampleToFloat (u16OfBytesLE 255 255) = (directSignedLE 255 255 : ℚ) / 32768 :=
  ⟨⟨by decide, by decide⟩, c3_decode_paths_agree 255 255 (by decide) (by decide)⟩

/-- C4 counterexample: on the odd-length buffer `[0, 0, 1]`, `decode` does not
fail — there is no `MalformedFrame` error path anywhere in the code — and it
does produce a (partially) decoded sample from the first byte pair, so the
claimed error behaviour and absence of partial decoding are both refuted. -/
theorem c4_decode_odd_counterexample :
    decode [0, 0, 1] = [0] ∧ (decode [0, 0, 1]).length = 1 := by
  decide

/-- C4 amended: `decode` is total on every buffer; it decodes `⌊n / 2⌋`
samples, and on a buffer of even length followed by one trailing byte the
trailing byte is silently ignored. -/
theorem c4_decode_truncates (bs : List Nat) (c : Nat) :
    (decode bs).length = bs.length / 2 ∧
      (bs.length % 2 = 0 → decode (bs ++ [c]) = decode bs) := by
  induction bs using twoStepInduction with
  | nil => exact ⟨rfl, fun _ => rfl⟩
  | single b =>
    refine ⟨by norm_num [decode], fun he => ?_⟩
    simp at he
  | cons2 b0 b1 rest ih =>
    refine ⟨?_, fun he => ?_⟩
    · simp only [decode, List.length_cons, ih.1]
      omega
    · have hr : rest.length % 2 = 0 := by
        simp only [List.length_cons] at he
        omega
      simp only [List.cons_append, List.append_eq, decode, ih.2 hr]

/-- Witness for C4's amended statement on the even buffer `[0, 0]` with
trailing byte `5`. -/
theorem c4_decode_truncates_witness :
    (decode [0, 0]).length = [0, 0].length / 2 ∧ decode ([0, 0] ++ [5]) = decode [0, 0] :=
  ⟨(c4_decode_truncates [0, 0] 5).1, (c4_decode_truncates [0, 0] 5).2 (by decide)⟩

/-- C5: on every even-length byte buffer, re-encoding the decoded sample
sequence reproduces the buffer exactly. -/
theorem c5_encode_decode_roundtrip (bs : List Nat)
    (hb : ∀ b ∈ bs, b < 256) (he : bs.length % 2 = 0) :
    encode (decode bs) = bs := by
  induction bs using twoStepInduction with
  | nil => rfl
  | single b => simp at he
  | cons2 b0 b1 rest ih =>
    have hb0 : b0 < 256 := hb b0 (by simp)
    have hb1 : b1 < 256 := hb b1 (by simp)
    have hrest : ∀ b ∈ rest, b < 256 := fun b hmem => hb b (by simp [hmem])
    have herest : rest.length % 2 = 0 := by
      simp only [List.length_cons] at he
      omega
    simp only [decode, encode, ih hrest herest, u16OfBytesLE_eq_add b0 b1 hb0,
      toSigned16, List.cons.injEq]
    refine ⟨?_, ?_, trivial⟩ <;> split_ifs with h <;> omega

/-- Witness for C5 on the buffer `[16, 254]` (one sample, value `-496`). -/
theorem c5_encode_decode_roundtrip_witness :
    encode (decode [16, 254]) = [16, 254] :=
  c5_encode_decode_roundtrip [16, 254] (by decide) (by decide)

/-- C9: the clamped float-to-int16 capture conversion of line 149 lands in
`[-32768, 32767]` for every input, however far outside `[-1, 1]`. -/
theorem c9_capture_sample_in_range (x : ℚ) :
    -32768 ≤ floatToInt16 x ∧ floatToInt16 x ≤ 32767 := by
  have hlo : (-32768 : ℚ) ≤ max (-32768) (min 32767 (x * 32768)) := le_max_left _ _
  have hhi : max (-32768 : ℚ) (min 32767 (x * 32768)) ≤ 32767 :=
    max_le (by norm_num) (min_le_left _ _)
  unfold floatToInt16 jsTrunc
  split_ifs with h
  · constructor
    · have h2 := Int.floor_mono hlo
      rwa [show ((-32768 : ℚ)) = (((-32768 : Int)) : ℚ) by norm_num,
        Int.floor_intCast] at h2
    · have h2 := Int.floor_mono hhi
      rwa [show ((32767 : ℚ)) = (((32767 : Int)) : ℚ) by norm_num,
        Int.floor_intCast] at h2
  · constructor
    · have h2 := Int.ceil_mono hlo
      rwa [show ((-32768 : ℚ)) = (((-32768 : Int)) : ℚ) by norm_num,
        Int.ceil_intCast] at h2
    · have h2 := Int.ceil_mono hhi
      rwa [show ((32767 : ℚ)) = (((32767 : Int)) : ℚ) by norm_num,
        Int.ceil_intCast] at h2

/-! ## Playback scheduler

The queue `audioQueueRef`, the flag `isPlayingRef`, and the drain loop of
`playAudioQueue` (lines 70-108), driven by the `ws.onmessage` enqueue path
(lines 38-49).  JavaScript is single-threaded: the handler's
push-then-maybe-start-drain and each loop iteration up to its `await` run
atomically, so the system is a small-step machine whose steps are the atomic
sections between suspension points.  The per-frame body (lines 83-101:
`createBuffer`, the decode loop, `source.start()`) can throw synchronously;
the `ok` flag of an event says whether starting that render succeeded. -/

/-- Render trace entries recorded by a mock renderer: a render of a frame
starts, or the render in flight ends. -/
inductive REv where
  | rstart : Frame → REv
  | rend : Frame → REv
deriving DecidableEq, Repr

/-- External events driving the scheduler: `arrive f ok` is `ws.onmessage`
delivering frame `f` (with `ok` telling whether a render started by this
handler invocation succeeds to start), and `renderDone ok` is the `onended`
resolution of the in-flight render (with `ok` telling whether starting the
next queued frame, if any, succeeds). -/
inductive Ev where
  | arrive : Frame → Bool → Ev
  | renderDone : Bool → Ev
deriving DecidableEq, Repr

/-- Scheduler state: `queue` is `audioQueueRef.current`, `draining` is
`isPlayingRef.current`, `rendering` is the render awaited on lines 98-101,
`rendered` the completed renders in order, `drainsStarted` the test counter
of §8, and `log` the mock renderer's trace. -/
structure SchedState where
  queue : List Frame
  draining : Bool
  rendering : Option Frame
  rendered : List Frame
  drainsStarted : Nat
  log : List REv
deriving DecidableEq, Repr

/-- Initial state: empty queue, flag down (lines 24-25). -/
def schedInit : SchedState :=
  { queue := [], draining := false, rendering := none, rendered := [],
    drainsStarted := 0, log := [] }

/-- One atomic step.  `arrive`: push (line 43), then if `isPlayingRef` is
clear call `playAudioQueue` (lines 45-47), which re-checks the guard
(line 71), raises the flag (line 73), pops the head (line 81) and either
starts its render, suspending at the `await` (lines 98-101), or throws,
landing in `catch`/`finally` which clears the flag (lines 103-107).
`renderDone`: the awaited promise resolves, the loop re-tests the queue
(line 80) and either pops and starts the next frame, throws on it, or, on an
empty queue, exits and clears the flag in `finally`. -/
def schedStep (s : SchedState) (e : Ev) : SchedState :=
  match e with
  | .arrive f ok =>
    let q := s.queue ++ [f]
    if s.draining then { s with queue := q }
    else
      match q with
      | [] => { s with queue := q }
      | g :: rest =>
        if ok then
          { s with queue := rest, draining := true,
                   drainsStarted := s.drainsStarted + 1,
                   rendering := some g, log := s.log ++ [.rstart g] }
        else
          { s with queue := rest, draining := false,
                   drainsStarted := s.drainsStarted + 1, rendering := none }
  | .renderDone ok =>
    match s.rendering with
    | none => s
    | some f =>
      let rendered := s.rendered ++ [f]
      let log := s.log ++ [.rend f]
      match s.queue with
      | [] =>
        { s with rendered := rendered, log := log, rendering := none,
                 draining := false }
      | g :: rest =>
        if ok then
          { s with queue := rest, rendered := rendered, rendering := some g,
                   log := log ++ [.rstart g] }
        else
          { s with queue := rest, rendered := rendered, log := log,
                   rendering := none, draining := false }

/-- Run the scheduler from the initial state over a list of events. -/
def schedRun (evs : List Ev) : SchedState :=
  evs.foldl schedStep schedInit

/-- A render can be in flight only while the `isPlayingRef` flag is up. -/
def SchedInv (s : SchedState) : Prop :=
  s.rendering.isSome → s.draining = true

theorem schedInv_step {s : SchedState} (hs : SchedInv s) (e : Ev) :
    SchedInv (schedStep s e) := by
  cases e with
  | arrive f ok =>
    by_cases hd : s.draining
    · intro _
      simp only [schedStep, hd, if_true]
    · simp only [schedStep, hd, Bool.false_eq_true, if_false]
      cases hq : s.queue ++ [f] with
      | nil => intro h; exact absurd (hs h) hd
      | cons g rest =>
        cases ok with
        | true => intro _; rfl
        | false => intro h; simp at h
  | renderDone ok =>
    cases hr : s.rendering with
    | none => simpa only [schedStep, hr] using hs
    | some f =>
      cases hq : s.queue with
      | nil => intro h; simp [schedStep, hr, hq] at h
      | cons g rest =>
        cases ok with
        | true =>
          intro _
          simp only [schedStep, hr, hq, if_true]
          exact hs (by simp [hr])
        | false => intro h; simp [schedStep, hr, hq] at h

theorem schedInv_run (evs : List Ev) : SchedInv (schedRun evs) := by
  suffices h : ∀ (s : SchedState), SchedInv s → SchedInv (evs.foldl schedStep s) from
    h schedInit (fun h => by simp [schedInit] at h)
  induction evs with
  | nil => exact fun s hs => hs
  | cons e rest ih => exact fun s hs => ih (schedStep s e) (schedInv_step hs e)

/-- C1: an enqueue that arrives while the `isPlayingRef` flag is up only
appends to the queue and changes nothing else — in particular it never starts
a second drain (the drains-started counter is unchanged); a render can only be
in flight with the flag up, so no enqueue during an active render starts a
drain; an enqueue from an idle scheduler raises the flag before the loop runs
and bumps the counter; and a completed render clears the flag exactly when it
finds the queue empty. -/
theorem c1_at_most_one_drain (evs : List Ev) (f g : Frame) (ok : Bool) :
    ((schedRun evs).draining = true →
      schedStep (schedRun evs) (.arrive f ok) =
        { schedRun evs with queue := (schedRun evs).queue ++ [f] }) ∧
    ((schedRun evs).rendering = some g → (schedRun evs).draining = true) ∧
    ((schedRun evs).draining = false →
      (schedStep (schedRun evs) (.arrive f true)).draining = true ∧
      (schedStep (schedRun evs) (.arrive f true)).drainsStarted =
        (schedRun evs).drainsStarted + 1) ∧
    ((schedRun evs).rendering = some g →
      ((schedStep (schedRun evs) (.renderDone true)).draining = false ↔
        (schedRun evs).queue = [])) := by
  have hinv : (schedRun evs).rendering = some g → (schedRun evs).draining = true :=
    fun hr => schedInv_run evs (by simp [hr])
  refine ⟨fun hd => ?_, hinv, fun hd => ?_, fun hr => ?_⟩
  · simp only [schedStep, hd, if_true]
  · cases hq : (schedRun evs).queue ++ [f] with
    | nil => simp at hq
    | cons a l =>
      exact ⟨by simp [schedStep, hd, hq], by simp [schedStep, hd, hq]⟩
  · have hd := hinv hr
    cases hq : (schedRun evs).queue with
    | nil => simp [schedStep, hr, hq]
    | cons a l => simp [schedStep, hr, hq, hd]

/-- Witness for C1: a frame arriving during the drain started by a first
frame only appends; a frame arriving at an idle scheduler raises the flag and
counts one drain; finishing the last render clears the flag. -/
theorem c1_at_most_one_drain_witness :
    (schedStep (schedRun [.arrive [0, 0] true]) (.arrive [1, 0] true) =
      { schedRun [.arrive [0, 0] true] with
          queue := (schedRun [.arrive [0, 0] true]).queue ++ [[1, 0]] }) ∧
    ((schedStep (schedRun []) (.arrive [1, 0] true)).draining = true ∧
      (schedStep (schedRun []) (.arrive [1, 0] true)).drainsStarted =
        (schedRun []).drainsStarted + 1) ∧
    ((schedStep (schedRun [.arrive [0, 0] true]) (.renderDone true)).draining = false ↔
      (schedRun [.arrive [0, 0] true]).queue = []) :=
  ⟨(c1_at_most_one_drain [.arrive [0, 0] true] [1, 0] [0, 0] true).1 (by decide),
   (c1_at_most_one_drain [] [1, 0] [0, 0] true).2.2.1 (by decide),
   (c1_at_most_one_drain [.arrive [0, 0] true] [1, 0] [0, 0] true).2.2.2
     (by decide)⟩

/-- C2: three frames enqueued in order onto an idle scheduler, all arriving
before any render finishes (burst arrival), are rendered exactly in order
F1, F2, F3, with the trace showing strictly alternating, non-overlapping
starts and ends, no drop and no reorder, and a single drain started. -/
theorem c2_fifo_in_order (F1 F2 F3 : Frame) :
    schedRun [.arrive F1 true, .arrive F2 true, .arrive F3 true,
      .renderDone true, .renderDone true, .renderDone true] =
      { queue := [], draining := false, rendering := none,
        rendered := [F1, F2, F3], drainsStarted := 1,
        log := [.rstart F1, .rend F1, .rstart F2, .rend F2,
                .rstart F3, .rend F3] } :=
  rfl

/-- C6: if, after the in-flight frame `f` finishes, starting the render of
the next queued frame `g` throws, the drain halts: the flag is cleared, `g`
is popped and lost (it is never rendered), the frames behind it stay queued,
and a later enqueue restarts a fresh drain. -/
theorem c6_render_failure_halts_drain (evs : List Ev) (f g h : Frame)
    (rest : List Frame) (hr : (schedRun evs).rendering = some f)
    (hq : (schedRun evs).queue = g :: rest) :
    (schedStep (schedRun evs) (.renderDone false)).draining = false ∧
    (schedStep (schedRun evs) (.renderDone false)).rendering = none ∧
    (schedStep (schedRun evs) (.renderDone false)).queue = rest ∧
    (schedStep (schedRun evs) (.renderDone false)).rendered =
      (schedRun evs).rendered ++ [f] ∧
    (schedStep (schedRun evs) (.renderDone false)).log =
      (schedRun evs).log ++ [.rend f] ∧
    (schedStep (schedStep (schedRun evs) (.renderDone false))
        (.arrive h true)).draining = true ∧
    (schedStep (schedStep (schedRun evs) (.renderDone false))
        (.arrive h true)).drainsStarted = (schedRun evs).drainsStarted + 1 := by
  simp [schedStep, hr, hq]
  cases hq2 : rest ++ [h] with
  | nil => simp at hq2
  | cons a l => simp

/-- Witness for C6: with `[0,0]` in flight and `[1,0]`, `[2,0]` queued, a
throw while starting `[1,0]` clears the flag, loses `[1,0]`, keeps `[2,0]`
queued, and a later enqueue restarts draining. -/
theorem c6_render_failure_halts_drain_witness :
    (schedStep (schedRun [.arrive [0, 0] true, .arrive [1, 0] true,
        .arrive [2, 0] true]) (.renderDone false)).draining = false ∧
    (schedStep (schedRun [.arrive [0, 0] true, .arrive [1, 0] true,
        .arrive [2, 0] true]) (.renderDone false)).rendering = none ∧
    (schedStep (schedRun [.arrive [0, 0] true, .arrive [1, 0] true,
        .arrive [2, 0] true]) (.renderDone false)).queue = [[2, 0]] ∧
    (schedStep (schedRun [.arrive [0, 0] true, .arrive [1, 0] true,
        .arrive [2, 0] true]) (.renderDone false)).rendered =
      (schedRun [.arrive [0, 0] true, .arrive [1, 0] true,
        .arrive [2, 0] true]).rendered ++ [[0, 0]] ∧
    (schedStep (schedRun [.arrive [0, 0] true, .arrive [1, 0] true,
        .arrive [2, 0] true]) (.renderDone false)).log =
      (schedRun [.arrive [0, 0] true, .arrive [1, 0] true,
        .arrive [2, 0] true]).log ++ [.rend [0, 0]] ∧
    (schedStep (schedStep (schedRun [.arrive [0, 0] true, .arrive [1, 0] true,
        .arrive [2, 0] true]) (.renderDone false)) (.arrive [3, 0] true)).draining
      = true ∧
    (schedStep (schedStep (schedRun [.arrive [0, 0] true, .arrive [1, 0] true,
        .arrive [2, 0] true]) (.renderDone false)) (.arrive [3, 0] true)).drainsStarted
      = (schedRun [.arrive [0, 0] true, .arrive [1, 0] true,
        .arrive [2, 0] true]).drainsStarted + 1 :=
  c6_render_failure_halts_drain
    [.arrive [0, 0] true, .arrive [1, 0] true, .arrive [2, 0] true]
    [0, 0] [1, 0] [3, 0] [[2, 0]] (by decide) (by decide)

/-! ## Capture pipeline

`startRecording` (lines 111-173), the `onaudioprocess` handler (lines
140-156) and `stopRecording` (lines 176-195).  `wsReady` models
`wsRef.current?.readyState`; `processorConnected` models the
`ScriptProcessorNode` being wired into the audio graph (lines 159-160), which
is what makes `onaudioprocess` fire; `tracksLive` models the `MediaStream`
tracks before `track.stop()`; `sent` is the list of byte payloads passed to
`wsRef.current.send` (line 154). -/

/-- WebSocket ready states. -/
inductive WsReady where
  | connecting
  | ready
  | closing
  | closed
deriving DecidableEq, Repr

/-- Capture-side state. -/
structure CapState where
  wsRef : Option WsReady
  processorConnected : Bool
  tracksLive : Bool
  isRecording : Bool
  status : String
  isConnected : Bool
  micCalls : Nat
  sent : List (List Nat)
deriving DecidableEq, Repr

/-- Model of `startRecording` (lines 111-173): one `getUserMedia` attempt.  On denial
the `catch` (lines 169-172) only sets the status — nothing was wired, nothing
is sent, and there is no retry.  On success the stream is kept, the processor
is wired (lines 159-160) and recording starts (line 166). -/
def startRecording (micGranted : Bool) (s : CapState) : CapState :=
  if micGranted then
    { s with micCalls := s.micCalls + 1, tracksLive := true,
             processorConnected := true, isRecording := true,
             status := "Recording and streaming PCM..." }
  else
    { s with micCalls := s.micCalls + 1, status := "Microphone access denied" }

/-- The `onaudioprocess` handler (lines 140-156): fires only while the
processor is wired into the graph; sends the clamped-PCM16 encoding of the
input block only when `wsRef.current?.readyState === WebSocket.OPEN`
(line 141), otherwise the block is discarded. -/
def onAudioProcess (input : List ℚ) (s : CapState) : CapState :=
  if s.processorConnected then
    if s.wsRef = some WsReady.ready then
      { s with sent := s.sent ++ [encode (input.map floatToInt16)] }
    else s
  else s

/-- Model of `stopRecording` (lines 176-195): disconnects the processor from the
graph, stops every media track (releasing the device), and resets the UI
state. -/
def stopRecording (s : CapState) : CapState :=
  { s with processorConnected := false, tracksLive := false,
           isRecording := false,
           status := if s.isConnected then "Connected" else "Disconnected" }

/-- C7: when microphone access is denied, `startRecording` surfaces the
distinct denial status, makes exactly one device attempt (no retry), does not
start recording, wires nothing, and emits no frame. -/
theorem c7_capture_denied_no_effect (s : CapState) :
    (startRecording false s).status = "Microphone access denied" ∧
    (startRecording false s).isRecording = s.isRecording ∧
    (startRecording false s).processorConnected = s.processorConnected ∧
    (startRecording false s).tracksLive = s.tracksLive ∧
    (startRecording false s).sent = s.sent ∧
    (startRecording false s).micCalls = s.micCalls + 1 := by
  simp [startRecording]

/-- C8: after `stopRecording` returns, the device tracks are stopped and the
processor is disconnected, so no sequence of further audio-process ticks emits
anything (the state no longer changes at all); and until `stopRecording` is
called, a tick on a wired processor with an open socket does emit its frame. -/
theorem c8_stop_halts_emission (s : CapState) (inputs : List (List ℚ)) :
    (stopRecording s).tracksLive = false ∧
    (stopRecording s).processorConnected = false ∧
    inputs.foldl (fun t i => onAudioProcess i t) (stopRecording s) =
      stopRecording s ∧
    (s.processorConnected = true → s.wsRef = some WsReady.ready →
      (onAudioProcess inputs.headI s).sent =
        s.sent ++ [encode (inputs.headI.map floatToInt16)]) := by
  refine ⟨rfl, rfl, ?_, fun hc hw => by simp [onAudioProcess, hc, hw]⟩
  have hstable : ∀ (t : CapState), t.processorConnected = false →
      ∀ (is : List (List ℚ)), is.foldl (fun t i => onAudioProcess i t) t = t := by
    intro t ht is
    induction is with
    | nil => rfl
    | cons i rest ih =>
      simp only [List.foldl_cons, onAudioProcess, ht, Bool.false_eq_true, if_false]
      exact ih
  exact hstable (stopRecording s) rfl inputs

/-- Witness for C8: from a recording state with an open socket, one tick
emits its frame, and after `stopRecording` two further ticks change
nothing. -/
theorem c8_stop_halts_emission_witness :
    (stopRecording
        { wsRef := some WsReady.ready, processorConnected := true,
          tracksLive := true, isRecording := true,
          status := "Recording and streaming PCM...", isConnected := true,
          micCalls := 1, sent := [] }).tracksLive = false ∧
    [[(1 : ℚ)], [0]].foldl (fun t i => onAudioProcess i t)
        (stopRecording
          { wsRef := some WsReady.ready, processorConnected := true,
            tracksLive := true, isRecording := true,
            status := "Recording and streaming PCM...", isConnected := true,
            micCalls := 1, sent := [] }) =
      stopRecording
        { wsRef := some WsReady.ready, processorConnected := true,
          tracksLive := true, isRecording := true,
          status := "Recording and streaming PCM...", isConnected := true,
          micCalls := 1, sent := [] } ∧
    (onAudioProcess [[(1 : ℚ)], [0]].headI
        { wsRef := some WsReady.ready, processorConnected := true,
          tracksLive := true, isRecording := true,
          status := "Recording and streaming PCM...", isConnected := true,
          micCalls := 1, sent := [] }).sent =
      [] ++ [encode ([(1 : ℚ)].map floatToInt16)] :=
  ⟨(c8_stop_halts_emission
      { wsRef := some WsReady.ready, processorConnected := true,
        tracksLive := true, isRecording := true,
        status := "Recording and streaming PCM...", isConnected := true,
        micCalls := 1, sent := [] } [[(1 : ℚ)], [0]]).1,
   (c8_stop_halts_emission
      { wsRef := some WsReady.ready, processorConnected := true,
        tracksLive := true, isRecording := true,
        status := "Recording and streaming PCM...", isConnected := true,
        micCalls := 1, sent := [] } [[(1 : ℚ)], [0]]).2.2.1,
   (c8_stop_halts_emission
      { wsRef := some WsReady.ready, processorConnected := true,
        tracksLive := true, isRecording := true,
        status := "Recording and streaming PCM...", isConnected := true,
        micCalls := 1, sent := [] } [[(1 : ℚ)], [0]]).2.2.2 rfl rfl⟩

/-- C10: an audio-process tick sends its frame only when the WebSocket is
present and OPEN: in every other ready state (or with no socket at all) the
captured block is discarded and the state is untouched; with an open socket
and a wired processor the frame is appended to the transport's sent list. -/
theorem c10_send_only_when_open (s : CapState) (input : List ℚ) :
    (s.wsRef ≠ some WsReady.ready → onAudioProcess input s = s) ∧
    (s.wsRef = some WsReady.ready → s.processorConnected = true →
      onAudioProcess input s =
        { s with sent := s.sent ++ [encode (input.map floatToInt16)] }) := by
  constructor
  · intro hw
    by_cases hc : s.processorConnected <;> simp [onAudioProcess, hc, hw]
  · intro hw hc
    simp [onAudioProcess, hc, hw]

/-- Witness for C10: a closed socket discards the block; an open socket
sends it. -/
theorem c10_send_only_when_open_witness :
    onAudioProcess [(1 : ℚ)]
        { wsRef := some WsReady.closed, processorConnected := true,
          tracksLive := true, isRecording := true, status := "", isConnected := true,
          micCalls := 1, sent := [] } =
      { wsRef := some WsReady.closed, processorConnected := true,
        tracksLive := true, isRecording := true, status := "", isConnected := true,
        micCalls := 1, sent := [] } ∧
    onAudioProcess [(1 : ℚ)]
        { wsRef := some WsReady.ready, processorConnected := true,
          tracksLive := true, isRecording := true, status := "", isConnected := true,
          micCalls := 1, sent := [] } =
      { wsRef := some WsReady.ready, processorConnected := true,
        tracksLive := true, isRecording := true, status := "", isConnected := true,
        micCalls := 1,
        sent := [] ++ [encode ([(1 : ℚ)].map floatToInt16)] } :=
  ⟨(c10_send_only_when_open
      { wsRef := some WsReady.closed, processorConnected := true,
        tracksLive := true, isRecording := true, status := "", isConnected := true,
        micCalls := 1, sent := [] } [(1 : ℚ)]).1 (by decide),
   (c10_send_only_when_open
      { wsRef := some WsReady.ready, processorConnected := true,
        tracksLive := true, isRecording := true, status := "", isConnected := true,
        micCalls := 1, sent := [] } [(1 : ℚ)]).2 rfl rfl⟩

end AudioStreamer
